import Mathlib

/-!
Verification of the asynchronous SSM command dispatch-and-poll engine of the
terraform provider (internal/ssm/send_command_resource.go).

The Go source is shallowly embedded: the remote API is an environment
(per-attempt query results, sleep outcomes, context state), Terraform
framework values are a three-state `TFValue`, and `diag.Diagnostics` is a
list of severity-tagged entries.  The poll loop of `executeSSMCommand` is
embedded as a structural recursion on the number of remaining attempts.
-/

/-- Severity of one diagnostic entry (terraform-plugin-framework diag). -/
inductive Severity where
  | error
  | warning
deriving DecidableEq

/-- One diagnostic entry: severity, summary and detail strings. -/
structure Diagnostic where
  severity : Severity
  summary : String
  detail : String
deriving DecidableEq

/-- Embedding of diag.Diagnostics: an ordered list of entries. -/
structure Diagnostics where
  entries : List Diagnostic
deriving DecidableEq

/-- The empty diagnostics value diag.Diagnostics\x7b\x7d. -/
def Diagnostics.empty : Diagnostics := ⟨[]⟩

/-- AddError appends an error-severity entry. -/
def Diagnostics.addError (d : Diagnostics) (summary detail : String) : Diagnostics :=
  ⟨d.entries ++ [⟨Severity.error, summary, detail⟩]⟩

/-- AddWarning appends a warning-severity entry. -/
def Diagnostics.addWarning (d : Diagnostics) (summary detail : String) : Diagnostics :=
  ⟨d.entries ++ [⟨Severity.warning, summary, detail⟩]⟩

/-- HasError: whether any entry has error severity. -/
def Diagnostics.hasError (d : Diagnostics) : Bool :=
  d.entries.any (fun e => e.severity == Severity.error)

/-- WarningsCount: the number of warning-severity entries. -/
def Diagnostics.warningsCount (d : Diagnostics) : Nat :=
  (d.entries.filter (fun e => e.severity == Severity.warning)).length

/-- Coarse per-invocation status (ssmtypes.CommandInvocationStatus). -/
inductive CommandInvocationStatus where
  | pending
  | inProgress
  | delayed
  | success
  | cancelled
  | timedOut
  | failed
  | cancelling
deriving DecidableEq

/-- Per-plugin status (ssmtypes.CommandPluginStatus). -/
inductive CommandPluginStatus where
  | pending
  | inProgress
  | success
  | timedOut
  | cancelled
  | failed
deriving DecidableEq

/-- One CommandPlugin sub-record of an invocation. -/
structure CommandPlugin where
  name : String
  status : CommandPluginStatus
  statusDetails : String
  output : String
deriving DecidableEq

/-- One CommandInvocation record: per-target observation of the command. -/
structure CommandInvocation where
  instanceId : String
  status : CommandInvocationStatus
  statusDetails : String
  commandPlugins : List CommandPlugin
deriving DecidableEq

/-- The in-progress coarse statuses tested by PollCommandInvocation
(Pending, InProgress, Delayed, Cancelling). -/
def isInProgressStatus : CommandInvocationStatus → Bool
  | CommandInvocationStatus.pending => true
  | CommandInvocationStatus.inProgress => true
  | CommandInvocationStatus.delayed => true
  | CommandInvocationStatus.cancelling => true
  | _ => false

/-- The terminal-failure coarse statuses tested by PollCommandInvocation
(Failed, TimedOut, Cancelled). -/
def isTerminalFailureStatus : CommandInvocationStatus → Bool
  | CommandInvocationStatus.failed => true
  | CommandInvocationStatus.timedOut => true
  | CommandInvocationStatus.cancelled => true
  | _ => false

/-- The plugin statuses that keep the command counted as still running
(InProgress, Pending) in PollCommandInvocation. -/
def pluginStillRunning : CommandPluginStatus → Bool
  | CommandPluginStatus.inProgress => true
  | CommandPluginStatus.pending => true
  | _ => false

/-- The mutable scan state of PollCommandInvocation's invocation loop:
allCompleted and hasErrors flags plus the accumulated diagnostics. -/
structure PollScan where
  allCompleted : Bool
  hasErrors : Bool
  diagnostics : Diagnostics

/-- Body of the inner plugin loop of PollCommandInvocation. -/
def scanPlugin (commandId instanceId : String) (st : PollScan) (p : CommandPlugin) : PollScan :=
  if pluginStillRunning p.status then
    { st with allCompleted := false }
  else if p.status != CommandPluginStatus.success then
    { st with
      hasErrors := true
      diagnostics := st.diagnostics.addError
        ("Plugin " ++ p.name ++ " failed: " ++ p.statusDetails)
        ("Command: " ++ commandId ++ ", Instance: " ++ instanceId ++ ", Output: " ++ p.output) }
  else st

/-- Body of the outer invocation loop of PollCommandInvocation: the coarse
status checks followed by the plugin scan. -/
def scanInvocation (commandId : String) (st : PollScan) (inv : CommandInvocation) : PollScan :=
  let st1 :=
    if isInProgressStatus inv.status then
      { st with
        allCompleted := false
        diagnostics := st.diagnostics.addWarning "Command Invocation In Progress"
          ("Command invocation is still in progress for command ID: " ++ commandId
            ++ ", instance ID: " ++ inv.instanceId) }
    else st
  let st2 :=
    if isTerminalFailureStatus inv.status then
      { st1 with
        hasErrors := true
        diagnostics := st1.diagnostics.addError "Command Invocation Failed"
          ("Command invocation failed for instance " ++ inv.instanceId
            ++ ": " ++ inv.statusDetails) }
    else st1
  inv.commandPlugins.foldl (scanPlugin commandId inv.instanceId) st2

/-- PollCommandInvocation: classify one poll attempt.  The
ListCommandInvocations call is embedded as its result, either a transport
error or the list of invocation records.  Returns diagnostics whose error
entries mean failure, warning entries mean still running, and emptiness
means success. -/
def PollCommandInvocation (commandId : String)
    (queryResult : Except String (List CommandInvocation)) : Diagnostics :=
  match queryResult with
  | Except.error e =>
      Diagnostics.addError Diagnostics.empty "AWS Client Error"
        ("Unable to ListCommandInvocations, got error: " ++ e)
  | Except.ok invocations =>
      if invocations.length == 0 then
        Diagnostics.addWarning Diagnostics.empty "Command Invocations Not Found"
          ("No command invocations found for command ID: " ++ commandId)
      else
        let st := invocations.foldl (scanInvocation commandId) ⟨true, false, Diagnostics.empty⟩
        if st.hasErrors then st.diagnostics
        else if !st.allCompleted then st.diagnostics
        else Diagnostics.empty

/-- The per-record reduction of getActualCommandStatus.  In the Go source
every branch of the loop body returns, so only the first record is ever
inspected; the recursion mirrors that loop. -/
def getActualCommandStatusRecords : List CommandInvocation → String
  | [] => "Unknown"
  | inv :: _ =>
      if inv.commandPlugins.any (fun p => p.status != CommandPluginStatus.success) then
        "Failed"
      else
        match inv.status with
        | CommandInvocationStatus.success => "Success"
        | CommandInvocationStatus.failed => "Failed"
        | CommandInvocationStatus.timedOut => "TimedOut"
        | CommandInvocationStatus.cancelled => "Cancelled"
        | _ => "Unknown"

/-- getActualCommandStatus: the Status Resolver.  A failed fresh query
yields "Unknown"; otherwise the records are reduced. -/
def getActualCommandStatus (queryResult : Except String (List CommandInvocation)) : String :=
  match queryResult with
  | Except.error _ => "Unknown"
  | Except.ok invocations => getActualCommandStatusRecords invocations

/-- Outcome of the select between the backoff sleep and the ambient
context: the sleep elapsed, the 5-minute deadline fired, or the context
was cancelled for another reason. -/
inductive SleepOutcome where
  | elapsed
  | deadlineExceeded
  | cancelled
deriving DecidableEq

/-- The environment one dispatch-and-poll cycle runs in: the result of the
attempt-indexed ListCommandInvocations calls, the outcome of each backoff
sleep, the context-error check at the top of each iteration, and the result
of the one fresh read getActualCommandStatus performs. -/
structure PollEnv where
  queryResult : Nat → Except String (List CommandInvocation)
  sleepOutcome : Nat → SleepOutcome
  ctxErrBefore : Nat → Bool
  finalQuery : Except String (List CommandInvocation)

/-- What executeSSMCommand's poll loop produces: the final value of
data.Status, the diagnostics returned to the caller, whether
getActualCommandStatus was invoked, and the sequence of completed backoff
sleeps in seconds. -/
structure ExecResult where
  status : String
  diagnostics : Diagnostics
  resolverInvoked : Bool
  delays : List Nat
deriving DecidableEq

/-- The attempt ceiling of the poll loop. -/
def maxAttempts : Nat := 10

/-- The backoff update after a completed sleep: double, capped at 30s. -/
def nextBackoff (b : Nat) : Nat :=
  if 2 * b > 30 then 30 else 2 * b

/-- Diagnostics produced when the ambient context ends for a reason other
than the poll deadline. -/
def cancelDiag (attempt : Nat) : Diagnostics :=
  Diagnostics.addError Diagnostics.empty "Operation Cancelled"
    ("Context cancelled before attempt " ++ toString (attempt + 1))

/-- Diagnostics produced when the 5-minute deadline fires mid-sleep. -/
def timeoutDiag (commandId : String) (attempt : Nat) : Diagnostics :=
  Diagnostics.addError Diagnostics.empty "Timeout while waiting for SSM Command to complete"
    ("Timeout occurred while waiting on command " ++ commandId
      ++ " (polled " ++ toString (attempt + 1) ++ " times)")

/-- The poll loop of executeSSMCommand, recursing on the number of
remaining attempts (maxAttempts - attempt in the source loop).  Status is
"InProgress" on entry and is only changed by the failure branch ("Failed")
or by a getActualCommandStatus read; the error diagnostics of a failed
attempt are dropped (the outer diagnostics value is returned unchanged). -/
def execLoopAux (env : PollEnv) (commandId : String)
    (attempt backoff : Nat) : Nat → List Nat → ExecResult
  | 0, delays =>
      { status := getActualCommandStatus env.finalQuery
        diagnostics := Diagnostics.empty
        resolverInvoked := true
        delays := delays }
  | remaining + 1, delays =>
      if env.ctxErrBefore attempt then
        { status := "InProgress"
          diagnostics := cancelDiag attempt
          resolverInvoked := false
          delays := delays }
      else if (PollCommandInvocation commandId (env.queryResult attempt)).hasError then
        { status := "Failed"
          diagnostics := Diagnostics.empty
          resolverInvoked := false
          delays := delays }
      else if 0 < (PollCommandInvocation commandId (env.queryResult attempt)).warningsCount then
        match env.sleepOutcome attempt with
        | SleepOutcome.elapsed =>
            execLoopAux env commandId (attempt + 1) (nextBackoff backoff) remaining
              (delays ++ [backoff])
        | SleepOutcome.deadlineExceeded =>
            { status := "InProgress"
              diagnostics := timeoutDiag commandId attempt
              resolverInvoked := false
              delays := delays }
        | SleepOutcome.cancelled =>
            { status := "InProgress"
              diagnostics := cancelDiag attempt
              resolverInvoked := false
              delays := delays }
      else
        { status := getActualCommandStatus env.finalQuery
          diagnostics := Diagnostics.empty
          resolverInvoked := true
          delays := delays }

/-- The poll loop as entered by executeSSMCommand: attempt 0, 1s backoff,
maxAttempts remaining, no sleeps yet. -/
def runPollLoop (env : PollEnv) (commandId : String) : ExecResult :=
  execLoopAux env commandId 0 1 maxAttempts []

/-- A terraform-plugin-framework value: unknown, null, or a known value. -/
inductive TFValue (α : Type) where
  | unknown : TFValue α
  | null : TFValue α
  | known : α → TFValue α
deriving DecidableEq

/-- IsNull of a framework value. -/
def TFValue.isNull {α : Type} : TFValue α → Bool
  | TFValue.null => true
  | _ => false

/-- The IsUnknown-or-IsNull test used on computed attributes in Update. -/
def TFValue.isUnknownOrNull {α : Type} : TFValue α → Bool
  | TFValue.unknown => true
  | TFValue.null => true
  | TFValue.known _ => false

/-- One entry of the targets block: a selector key and its values. -/
structure TargetBlock where
  key : String
  values : List String
deriving DecidableEq

/-- One ssmtypes.Target passed to the SendCommand API. -/
structure SSMTarget where
  key : String
  values : List String
deriving DecidableEq

/-- SendCommandResourceModel: the attributes of the resource that the
dispatch-and-poll cycle reads and writes. -/
structure SendCommandModel where
  id : TFValue String
  documentName : TFValue String
  instanceIds : TFValue (List String)
  targets : List TargetBlock
  parameters : TFValue (List (String × String))
  comment : TFValue String
  commandId : TFValue String
  status : TFValue String
  triggers : TFValue (List (String × String))
deriving DecidableEq

/-- validateAndBuildTargets: exactly one of instance_ids (non-null) and the
targets block (non-empty) must be supplied; on success the ssmtypes.Target
list is built from whichever form is present. -/
def validateAndBuildTargets (data : SendCommandModel) :
    Option (List SSMTarget) × Diagnostics :=
  let hasInstanceIds := !data.instanceIds.isNull
  let hasTargets := decide (0 < data.targets.length)
  if !hasInstanceIds && !hasTargets then
    (none, Diagnostics.addError Diagnostics.empty "Validation Error"
      "Either instance_ids or targets must be specified")
  else if hasInstanceIds && hasTargets then
    (none, Diagnostics.addError Diagnostics.empty "Validation Error"
      "Cannot specify both instance_ids and targets. Use either instance_ids or targets, not both")
  else if !data.instanceIds.isNull then
    match data.instanceIds with
    | TFValue.known ids => (some [⟨"InstanceIds", ids⟩], Diagnostics.empty)
    | _ =>
        (none, Diagnostics.addError Diagnostics.empty "Client Error"
          "Unable to convert instance_ids, value is not fully known")
  else
    (some (data.targets.map (fun t => ⟨t.key, t.values⟩)), Diagnostics.empty)

/-- convertParameters: wrap every configured parameter value in a
single-element list; a null map yields the empty mapping. -/
def convertParameters (parameters : TFValue (List (String × String))) :
    List (String × List String) :=
  match parameters with
  | TFValue.known kvs => kvs.map (fun kv => (kv.1, [kv.2]))
  | _ => []

/-- The dispatch environment: the SendCommand response (a command id or a
transport error) and the poll environment of the cycle it starts. -/
structure DispatchEnv where
  sendResult : Except String String
  pollEnv : PollEnv

/-- executeSSMCommand: dispatch, then poll.  On dispatch failure an error
is returned and no polling happens; on success the command id is stored,
status starts at "InProgress" and the poll loop determines the final
status and diagnostics. -/
def executeSSMCommand (env : DispatchEnv) (data : SendCommandModel)
    (_targets : List SSMTarget) (_parameters : List (String × List String)) :
    SendCommandModel × Diagnostics :=
  match env.sendResult with
  | Except.error e =>
      (data, Diagnostics.addError Diagnostics.empty "Client Error"
        ("Unable to send command, got error: " ++ e))
  | Except.ok commandId =>
      let data1 := { data with
        id := TFValue.known commandId
        commandId := TFValue.known commandId
        status := TFValue.known "InProgress" }
      let r := runPollLoop env.pollEnv commandId
      ({ data1 with status := TFValue.known r.status }, r.diagnostics)

/-- normalizeOptionalValues: null parameters and triggers stay typed nulls,
a null comment becomes the empty string. -/
def normalizeOptionalValues (data : SendCommandModel) : SendCommandModel :=
  { data with
    parameters := if data.parameters.isNull then TFValue.null else data.parameters
    comment := if data.comment.isNull then TFValue.known "" else data.comment
    triggers := if data.triggers.isNull then TFValue.null else data.triggers }

/-- The Update fallback that forces computed attributes to the empty
string when they are still unknown or null. -/
def ensureComputedDefaults (data : SendCommandModel) : SendCommandModel :=
  { data with
    id := if data.id.isUnknownOrNull then TFValue.known "" else data.id
    commandId := if data.commandId.isUnknownOrNull then TFValue.known "" else data.commandId
    status := if data.status.isUnknownOrNull then TFValue.known "" else data.status }

/-- Create: validate targets, convert parameters, dispatch and poll, then
normalize.  The third component counts SendCommand dispatch calls. -/
def Create (env : DispatchEnv) (plan : SendCommandModel) :
    SendCommandModel × Diagnostics × Nat :=
  let v := validateAndBuildTargets plan
  if v.2.hasError then (plan, v.2, 0)
  else
    let parameters := convertParameters plan.parameters
    let r := executeSSMCommand env plan (v.1.getD []) parameters
    if r.2.hasError then (r.1, r.2, 1)
    else (normalizeOptionalValues r.1, r.2, 1)

/-- Update: if the triggers map changed, run a full dispatch-and-poll cycle
again; otherwise preserve the computed attributes from current state.  The
third component counts SendCommand dispatch calls. -/
def Update (env : DispatchEnv) (plan state : SendCommandModel) :
    SendCommandModel × Diagnostics × Nat :=
  if plan.triggers = state.triggers then
    let data := { plan with
      id := if plan.id.isUnknownOrNull then state.id else plan.id
      commandId := if plan.commandId.isUnknownOrNull then state.commandId else plan.commandId
      status := if plan.status.isUnknownOrNull then state.status else plan.status }
    (normalizeOptionalValues (ensureComputedDefaults data), Diagnostics.empty, 0)
  else
    let v := validateAndBuildTargets plan
    if v.2.hasError then (plan, v.2, 0)
    else
      let parameters := convertParameters plan.parameters
      let r := executeSSMCommand env plan (v.1.getD []) parameters
      if r.2.hasError then (r.1, r.2, 1)
      else (normalizeOptionalValues (ensureComputedDefaults r.1), r.2, 1)

/-- The invariant carried through the scan: a set hasErrors flag means an
error entry is already present in the accumulated diagnostics. -/
def ScanSound (st : PollScan) : Prop :=
  st.hasErrors = true → st.diagnostics.hasError = true

/-- The schedule of completed sleeps that a run of still-running attempts
produces, starting from a given backoff. -/
def backoffSeq (b : Nat) : Nat → List Nat
  | 0 => []
  | n + 1 => b :: backoffSeq (nextBackoff b) n

/-- Modelled from the spec: the Status Resolver reduction as worded in the
specification — per target, in order, short-circuiting at the first match:
any plugin status other than success gives Failed, else the coarse status
success, failed, timed-out, cancelled give their statuses and any other
coarse status gives Unknown; an empty record set gives Unknown. -/
def specTargetRule (inv : CommandInvocation) : Option String :=
  if inv.commandPlugins.any (fun p => p.status != CommandPluginStatus.success) then
    some "Failed"
  else
    match inv.status with
    | CommandInvocationStatus.success => some "Success"
    | CommandInvocationStatus.failed => some "Failed"
    | CommandInvocationStatus.timedOut => some "TimedOut"
    | CommandInvocationStatus.cancelled => some "Cancelled"
    | _ => some "Unknown"

/-- Modelled from the spec: reduce the record set to the first matching
per-target rule, with Unknown for an empty record set. -/
def specFinalStatus (invs : List CommandInvocation) : String :=
  match invs.findSome? specTargetRule with
  | some s => s
  | none => "Unknown"

/-- The claim's reading of a populated identifier list: the value is a
known list with at least one element. -/
def instanceIdsNonEmpty (v : TFValue (List String)) : Bool :=
  match v with
  | TFValue.known l => !l.isEmpty
  | _ => false

/-- Exactly one of two flags is set. -/
def exactlyOne (a b : Bool) : Bool :=
  (a && !b) || (!a && b)

/-- Whether diagnostics consist of at least one error, all of them carrying
the "Validation Error" summary. -/
def isValidationError (d : Diagnostics) : Bool :=
  d.hasError && d.entries.all (fun e => e.summary == "Validation Error")

/-- A record whose command is still running on its target. -/
def invInProgress : CommandInvocation :=
  ⟨"i-0001", CommandInvocationStatus.inProgress, "InProgress", []⟩

/-- A record whose command failed on its target. -/
def invFailed : CommandInvocation :=
  ⟨"i-0002", CommandInvocationStatus.failed, "exit status 1", []⟩

/-- A record whose command succeeded on its target. -/
def invSuccess : CommandInvocation :=
  ⟨"i-0001", CommandInvocationStatus.success, "Success", []⟩

/-- An environment whose status queries always return zero records and
whose sleeps always elapse: the cycle exhausts all attempts. -/
def envZero : PollEnv :=
  { queryResult := fun _ => Except.ok []
    sleepOutcome := fun _ => SleepOutcome.elapsed
    ctxErrBefore := fun _ => false
    finalQuery := Except.ok [] }

/-- An environment whose first attempt sees a still-running record and
whose first sleep is interrupted by the 5-minute deadline. -/
def envDeadline : PollEnv :=
  { queryResult := fun _ => Except.ok [invInProgress]
    sleepOutcome := fun _ => SleepOutcome.deadlineExceeded
    ctxErrBefore := fun _ => false
    finalQuery := Except.ok [invInProgress] }

/-- An environment whose first attempt sees one failed and one
still-running record. -/
def envMixed : PollEnv :=
  { queryResult := fun _ => Except.ok [invFailed, invInProgress]
    sleepOutcome := fun _ => SleepOutcome.elapsed
    ctxErrBefore := fun _ => false
    finalQuery := Except.ok [invFailed, invInProgress] }

/-- An environment whose status query fails at the transport level. -/
def envTransport : PollEnv :=
  { queryResult := fun _ => Except.error "connection reset"
    sleepOutcome := fun _ => SleepOutcome.elapsed
    ctxErrBefore := fun _ => false
    finalQuery := Except.error "connection reset" }

/-- A configuration with a present-but-empty instance_ids list and no
targets block. -/
def dataEmptyIds : SendCommandModel :=
  { id := TFValue.unknown
    documentName := TFValue.known "AWS-RunShellScript"
    instanceIds := TFValue.known []
    targets := []
    parameters := TFValue.null
    comment := TFValue.null
    commandId := TFValue.unknown
    status := TFValue.unknown
    triggers := TFValue.null }

/-- A dispatch environment for concrete runs: dispatch succeeds and every
poll attempt reports zero records until the budget is exhausted. -/
def dispatchEnvZero : DispatchEnv :=
  { sendResult := Except.ok "11111111-2222-3333-4444-555555555555"
    pollEnv := envZero }

/-- A plan whose computed attributes are unknown, as produced for an
Update whose triggers did not change. -/
def planUnchanged : SendCommandModel :=
  { id := TFValue.unknown
    documentName := TFValue.known "AWS-RunShellScript"
    instanceIds := TFValue.known ["i-0001"]
    targets := []
    parameters := TFValue.null
    comment := TFValue.null
    commandId := TFValue.unknown
    status := TFValue.unknown
    triggers := TFValue.known [("run", "1")] }

/-- The prior state of that Update: the first cycle's persisted record. -/
def stateUnchanged : SendCommandModel :=
  { id := TFValue.known "cmd-0001"
    documentName := TFValue.known "AWS-RunShellScript"
    instanceIds := TFValue.known ["i-0001"]
    targets := []
    parameters := TFValue.null
    comment := TFValue.known ""
    commandId := TFValue.known "cmd-0001"
    status := TFValue.known "Success"
    triggers := TFValue.known [("run", "1")] }

/-- Appending an error entry makes HasError true. -/
lemma hasError_addError (d : Diagnostics) (s t : String) :
    (d.addError s t).hasError = true := by
  simp [Diagnostics.addError, Diagnostics.hasError, List.any_append]

/-- Appending a warning entry leaves HasError unchanged. -/
lemma hasError_addWarning (d : Diagnostics) (s t : String) :
    (d.addWarning s t).hasError = d.hasError := by
  simp [Diagnostics.addWarning, Diagnostics.hasError, List.any_append]

/-- The scan of one plugin keeps the hasErrors flag set. -/
lemma scanPlugin_hasErrors_mono (c i : String) (st : PollScan) (p : CommandPlugin)
    (h : st.hasErrors = true) : (scanPlugin c i st p).hasErrors = true := by
  unfold scanPlugin
  split
  · exact h
  · split
    · rfl
    · exact h

/-- The plugin fold keeps the hasErrors flag set. -/
lemma scanPlugins_foldl_hasErrors_mono (c i : String) (ps : List CommandPlugin) :
    ∀ st : PollScan, st.hasErrors = true →
      (ps.foldl (scanPlugin c i) st).hasErrors = true := by
  induction ps with
  | nil => intro st h; exact h
  | cons p ps ih =>
      intro st h
      exact ih (scanPlugin c i st p) (scanPlugin_hasErrors_mono c i st p h)

/-- The scan of one invocation keeps the hasErrors flag set. -/
lemma scanInvocation_hasErrors_mono (c : String) (st : PollScan) (inv : CommandInvocation)
    (h : st.hasErrors = true) : (scanInvocation c st inv).hasErrors = true := by
  unfold scanInvocation
  apply scanPlugins_foldl_hasErrors_mono
  split
  · rfl
  · split <;> exact h

/-- The invocation fold keeps the hasErrors flag set. -/
lemma scanInvocations_foldl_hasErrors_mono (c : String) (invs : List CommandInvocation) :
    ∀ st : PollScan, st.hasErrors = true →
      (invs.foldl (scanInvocation c) st).hasErrors = true := by
  induction invs with
  | nil => intro st h; exact h
  | cons inv invs ih =>
      intro st h
      exact ih (scanInvocation c st inv) (scanInvocation_hasErrors_mono c st inv h)

/-- An invocation with a terminal-failure coarse status sets hasErrors. -/
lemma scanInvocation_sets_hasErrors (c : String) (st : PollScan) (inv : CommandInvocation)
    (h : isTerminalFailureStatus inv.status = true) :
    (scanInvocation c st inv).hasErrors = true := by
  unfold scanInvocation
  apply scanPlugins_foldl_hasErrors_mono
  rw [h]
  simp

/-- If some record in the list has a terminal-failure coarse status, the
invocation fold ends with hasErrors set. -/
lemma scanInvocations_foldl_hasErrors_of_mem (c : String) (invs : List CommandInvocation)
    (inv : CommandInvocation) (hmem : inv ∈ invs)
    (hfail : isTerminalFailureStatus inv.status = true) :
    ∀ st : PollScan, (invs.foldl (scanInvocation c) st).hasErrors = true := by
  induction invs with
  | nil => cases hmem
  | cons a invs ih =>
      intro st
      rcases List.mem_cons.mp hmem with h | h
      · subst h
        exact scanInvocations_foldl_hasErrors_mono c invs _
          (scanInvocation_sets_hasErrors c st inv hfail)
      · exact ih h _

/-- Scanning one plugin preserves the soundness invariant. -/
lemma scanPlugin_sound (c i : String) (st : PollScan) (p : CommandPlugin)
    (h : ScanSound st) : ScanSound (scanPlugin c i st p) := by
  unfold scanPlugin
  split
  · exact h
  · split
    · intro _
      exact hasError_addError st.diagnostics _ _
    · exact h

/-- The plugin fold preserves the soundness invariant. -/
lemma scanPlugins_foldl_sound (c i : String) (ps : List CommandPlugin) :
    ∀ st : PollScan, ScanSound st → ScanSound (ps.foldl (scanPlugin c i) st) := by
  induction ps with
  | nil => intro st h; exact h
  | cons p ps ih =>
      intro st h
      exact ih _ (scanPlugin_sound c i st p h)

/-- Scanning one invocation preserves the soundness invariant. -/
lemma scanInvocation_sound (c : String) (st : PollScan) (inv : CommandInvocation)
    (h : ScanSound st) : ScanSound (scanInvocation c st inv) := by
  unfold scanInvocation
  apply scanPlugins_foldl_sound
  split
  · intro _
    exact hasError_addError _ _ _
  · split
    · intro hh
      have := h hh
      rw [hasError_addWarning]
      exact this
    · exact h

/-- The invocation fold preserves the soundness invariant. -/
lemma scanInvocations_foldl_sound (c : String) (invs : List CommandInvocation) :
    ∀ st : PollScan, ScanSound st → ScanSound (invs.foldl (scanInvocation c) st) := by
  induction invs with
  | nil => intro st h; exact h
  | cons inv invs ih =>
      intro st h
      exact ih _ (scanInvocation_sound c st inv h)

/-- A poll attempt over a record set containing a terminal failure returns
diagnostics with at least one error entry. -/
lemma pollCommandInvocation_hasError_of_failure (c : String)
    (invs : List CommandInvocation) (inv : CommandInvocation) (hmem : inv ∈ invs)
    (hfail : isTerminalFailureStatus inv.status = true) :
    (PollCommandInvocation c (Except.ok invs)).hasError = true := by
  cases invs with
  | nil => cases hmem
  | cons a l =>
      have herr : ((a :: l).foldl (scanInvocation c) ⟨true, false, Diagnostics.empty⟩).hasErrors = true :=
        scanInvocations_foldl_hasErrors_of_mem c (a :: l) inv hmem hfail _
      have hsound : ScanSound ((a :: l).foldl (scanInvocation c) ⟨true, false, Diagnostics.empty⟩) :=
        scanInvocations_foldl_sound c (a :: l) _ (by intro h; cases h)
      unfold PollCommandInvocation
      simp only [List.length_cons]
      rw [if_neg (by simp)]
      rw [if_pos herr]
      exact hsound herr

/-- With no remaining attempts the loop falls through to the final
unconditional getActualCommandStatus read. -/
lemma execLoopAux_exhausted (env : PollEnv) (c : String) (attempt backoff : Nat)
    (delays : List Nat) :
    execLoopAux env c attempt backoff 0 delays =
      ⟨getActualCommandStatus env.finalQuery, Diagnostics.empty, true, delays⟩ := rfl

/-- An attempt whose classification has an error entry ends the loop at
once: status becomes "Failed", the attempt's diagnostics are dropped and
the resolver is not consulted. -/
lemma execLoopAux_error_step (env : PollEnv) (c : String)
    (attempt backoff remaining : Nat) (delays : List Nat)
    (hctx : env.ctxErrBefore attempt = false)
    (herr : (PollCommandInvocation c (env.queryResult attempt)).hasError = true) :
    execLoopAux env c attempt backoff (remaining + 1) delays =
      ⟨"Failed", Diagnostics.empty, false, delays⟩ := by
  simp [execLoopAux, hctx, herr]

/-- An attempt classified as still running whose backoff sleep elapses
recurses into the next attempt with a doubled-and-capped backoff. -/
lemma execLoopAux_warn_elapsed_step (env : PollEnv) (c : String)
    (attempt backoff remaining : Nat) (delays : List Nat)
    (hctx : env.ctxErrBefore attempt = false)
    (herr : (PollCommandInvocation c (env.queryResult attempt)).hasError = false)
    (hwarn : 0 < (PollCommandInvocation c (env.queryResult attempt)).warningsCount)
    (hsleep : env.sleepOutcome attempt = SleepOutcome.elapsed) :
    execLoopAux env c attempt backoff (remaining + 1) delays =
      execLoopAux env c (attempt + 1) (nextBackoff backoff) remaining (delays ++ [backoff]) := by
  simp [execLoopAux, hctx, herr, hwarn, hsleep]

/-- An attempt classified as still running whose sleep is interrupted by
the deadline ends the loop with a timeout error and no resolver read. -/
lemma execLoopAux_deadline_step (env : PollEnv) (c : String)
    (attempt backoff remaining : Nat) (delays : List Nat)
    (hctx : env.ctxErrBefore attempt = false)
    (herr : (PollCommandInvocation c (env.queryResult attempt)).hasError = false)
    (hwarn : 0 < (PollCommandInvocation c (env.queryResult attempt)).warningsCount)
    (hsleep : env.sleepOutcome attempt = SleepOutcome.deadlineExceeded) :
    execLoopAux env c attempt backoff (remaining + 1) delays =
      ⟨"InProgress", timeoutDiag c attempt, false, delays⟩ := by
  simp [execLoopAux, hctx, herr, hwarn, hsleep]

/-- An attempt with neither errors nor warnings completes the cycle: the
resolver performs the fresh read that becomes the final status. -/
lemma execLoopAux_clean_step (env : PollEnv) (c : String)
    (attempt backoff remaining : Nat) (delays : List Nat)
    (hctx : env.ctxErrBefore attempt = false)
    (herr : (PollCommandInvocation c (env.queryResult attempt)).hasError = false)
    (hwarn : (PollCommandInvocation c (env.queryResult attempt)).warningsCount = 0) :
    execLoopAux env c attempt backoff (remaining + 1) delays =
      ⟨getActualCommandStatus env.finalQuery, Diagnostics.empty, true, delays⟩ := by
  simp [execLoopAux, hctx, herr, hwarn]

/-- The loop only ever appends to the accumulated delay list. -/
lemma execLoopAux_delays_prefix (env : PollEnv) (c : String) :
    ∀ (remaining attempt backoff : Nat) (delays : List Nat),
      ∃ s, (execLoopAux env c attempt backoff remaining delays).delays = delays ++ s := by
  intro remaining
  induction remaining with
  | zero =>
      intro attempt backoff delays
      exact ⟨[], by simp [execLoopAux_exhausted]⟩
  | succ n ih =>
      intro attempt backoff delays
      by_cases hctx : env.ctxErrBefore attempt
      · exact ⟨[], by simp [execLoopAux, hctx]⟩
      · by_cases herr : (PollCommandInvocation c (env.queryResult attempt)).hasError
        · exact ⟨[], by simp [execLoopAux, hctx, herr]⟩
        · by_cases hwarn : 0 < (PollCommandInvocation c (env.queryResult attempt)).warningsCount
          · cases hsleep : env.sleepOutcome attempt with
            | elapsed =>
                obtain ⟨s, hs⟩ := ih (attempt + 1) (nextBackoff backoff) (delays ++ [backoff])
                refine ⟨backoff :: s, ?_⟩
                rw [execLoopAux_warn_elapsed_step env c attempt backoff n delays
                  (by simpa using hctx) (by simpa using herr) hwarn hsleep, hs]
                simp
            | deadlineExceeded =>
                exact ⟨[], by simp [execLoopAux, hctx, herr, hwarn, hsleep]⟩
            | cancelled =>
                exact ⟨[], by simp [execLoopAux, hctx, herr, hwarn, hsleep]⟩
          · exact ⟨[], by simp [execLoopAux, hctx, herr, hwarn]⟩

/-- Length of the backoff schedule. -/
lemma backoffSeq_length (b : Nat) : ∀ n, (backoffSeq b n).length = n := by
  intro n
  induction n generalizing b with
  | zero => rfl
  | succ n ih => simp [backoffSeq, ih]

/-- Doubling-with-cap maps the closed form min(2^j, 30) to min(2^(j+1), 30). -/
lemma nextBackoff_min_pow (j : Nat) :
    nextBackoff (min (2 ^ j) 30) = min (2 ^ (j + 1)) 30 := by
  have hx : 2 ^ (j + 1) = 2 * 2 ^ j := by ring
  unfold nextBackoff
  rcases le_or_lt (2 ^ j) 30 with h | h
  · rw [min_eq_left h]
    split <;> omega
  · rw [min_eq_right (le_of_lt h)]
    rw [min_eq_right (by omega)]
    split <;> omega

/-- Closed form of the backoff schedule: starting from min(2^j, 30) the
k-th sleep lasts min(2^(j+k), 30) seconds. -/
lemma backoffSeq_closed_form (n : Nat) :
    ∀ j, backoffSeq (min (2 ^ j) 30) n =
      (List.range n).map (fun k => min (2 ^ (j + k)) 30) := by
  induction n with
  | zero => intro j; rfl
  | succ n ih =>
      intro j
      rw [List.range_succ_eq_map]
      simp only [backoffSeq, nextBackoff_min_pow, ih (j + 1), List.map_cons, List.map_map]
      refine List.cons_eq_cons.mpr ⟨by simp, ?_⟩
      apply List.map_congr_left
      intro k _
      have he : j + 1 + k = j + (k + 1) := by omega
      simp [Function.comp_apply, Nat.succ_eq_add_one, he]

/-- A run of M consecutive attempts that all classify as still running and
whose sleeps all elapse advances the loop M attempts, iterates the backoff
M times and appends the backoff schedule to the delay list. -/
lemma execLoopAux_warn_segment (env : PollEnv) (c : String) :
    ∀ (M attempt backoff remaining : Nat) (delays : List Nat),
      M ≤ remaining →
      (∀ k, k < M →
        env.ctxErrBefore (attempt + k) = false ∧
        (PollCommandInvocation c (env.queryResult (attempt + k))).hasError = false ∧
        0 < (PollCommandInvocation c (env.queryResult (attempt + k))).warningsCount ∧
        env.sleepOutcome (attempt + k) = SleepOutcome.elapsed) →
      execLoopAux env c attempt backoff remaining delays =
        execLoopAux env c (attempt + M) (nextBackoff^[M] backoff) (remaining - M)
          (delays ++ backoffSeq backoff M) := by
  intro M
  induction M with
  | zero =>
      intro attempt backoff remaining delays _ _
      simp [backoffSeq]
  | succ M ih =>
      intro attempt backoff remaining delays hM h
      cases remaining with
      | zero => omega
      | succ r =>
          have h0 := h 0 (Nat.succ_pos M)
          rw [Nat.add_zero] at h0
          rw [execLoopAux_warn_elapsed_step env c attempt backoff r delays
            h0.1 h0.2.1 h0.2.2.1 h0.2.2.2]
          have hstep := ih (attempt + 1) (nextBackoff backoff) r (delays ++ [backoff])
            (by omega)
            (fun k hk => by
              have hkk := h (k + 1) (by omega)
              rw [show attempt + 1 + k = attempt + (k + 1) from by omega]
              exact hkk)
          rw [hstep]
          have ha : attempt + 1 + M = attempt + (M + 1) := by omega
          have hr : r - M = r + 1 - (M + 1) := by omega
          have hb : nextBackoff^[M] (nextBackoff backoff) = nextBackoff^[M + 1] backoff :=
            (Function.iterate_succ_apply nextBackoff M backoff).symm
          have hd : (delays ++ [backoff]) ++ backoffSeq (nextBackoff backoff) M =
              delays ++ backoffSeq backoff (M + 1) := by
            simp [backoffSeq]
          rw [ha, hr, hb, hd]

/-- C1: for every poll attempt in which at least one record has a
terminal-failure coarse status and at least one other record is in
progress, the attempt classifies as has-failure (error diagnostics
present), never as still-in-progress, and the poll loop stops at that
attempt. -/
theorem poll_failure_precedence (env : PollEnv) (c : String)
    (invs : List CommandInvocation) (invF invP : CommandInvocation)
    (attempt backoff remaining : Nat) (delays : List Nat)
    (hq : env.queryResult attempt = Except.ok invs)
    (hctx : env.ctxErrBefore attempt = false)
    (hmemF : invF ∈ invs) (hfail : isTerminalFailureStatus invF.status = true)
    (hmemP : invP ∈ invs) (hprog : isInProgressStatus invP.status = true) :
    (PollCommandInvocation c (Except.ok invs)).hasError = true ∧
    execLoopAux env c attempt backoff (remaining + 1) delays =
      ⟨"Failed", Diagnostics.empty, false, delays⟩ := by
  have herr := pollCommandInvocation_hasError_of_failure c invs invF hmemF hfail
  refine ⟨herr, ?_⟩
  apply execLoopAux_error_step env c attempt backoff remaining delays hctx
  rw [hq]
  exact herr

/-- Witness for C1 at one failed and one in-progress record. -/
theorem poll_failure_precedence_witness :
    (PollCommandInvocation "c" (Except.ok [invFailed, invInProgress])).hasError = true ∧
    execLoopAux envMixed "c" 0 1 10 [] = ⟨"Failed", Diagnostics.empty, false, []⟩ :=
  poll_failure_precedence envMixed "c" [invFailed, invInProgress] invFailed invInProgress
    0 1 9 [] rfl rfl (by decide) (by decide) (by decide) (by decide)

/-- C6: a poll attempt whose status query returns zero records classifies
as still-in-progress (exactly one warning, no error), and the loop
proceeds to the next attempt, consuming one unit of the attempt budget. -/
theorem zero_records_still_in_progress (env : PollEnv) (c : String)
    (attempt backoff remaining : Nat) (delays : List Nat)
    (hq : env.queryResult attempt = Except.ok [])
    (hctx : env.ctxErrBefore attempt = false)
    (hsleep : env.sleepOutcome attempt = SleepOutcome.elapsed) :
    (PollCommandInvocation c (Except.ok [])).hasError = false ∧
    (PollCommandInvocation c (Except.ok [])).warningsCount = 1 ∧
    execLoopAux env c attempt backoff (remaining + 1) delays =
      execLoopAux env c (attempt + 1) (nextBackoff backoff) remaining (delays ++ [backoff]) := by
  refine ⟨rfl, rfl, ?_⟩
  apply execLoopAux_warn_elapsed_step env c attempt backoff remaining delays hctx
  · rw [hq]; rfl
  · rw [hq]; exact Nat.one_pos
  · exact hsleep

/-- Witness for C6 at attempt 0 of the zero-record environment. -/
theorem zero_records_still_in_progress_witness :
    (PollCommandInvocation "c" (Except.ok [])).hasError = false ∧
    (PollCommandInvocation "c" (Except.ok [])).warningsCount = 1 ∧
    execLoopAux envZero "c" 0 1 10 [] =
      execLoopAux envZero "c" 1 (nextBackoff 1) 9 ([] ++ [1]) :=
  zero_records_still_in_progress envZero "c" 0 1 9 [] rfl rfl rfl

/-- C8: a transport-level failure of the status query classifies with
error severity and no warning, and the cycle stops at that attempt without
retrying the query. -/
theorem transport_error_fatal (env : PollEnv) (c e : String)
    (attempt backoff remaining : Nat) (delays : List Nat)
    (hq : env.queryResult attempt = Except.error e)
    (hctx : env.ctxErrBefore attempt = false) :
    (PollCommandInvocation c (Except.error e)).hasError = true ∧
    (PollCommandInvocation c (Except.error e)).warningsCount = 0 ∧
    execLoopAux env c attempt backoff (remaining + 1) delays =
      ⟨"Failed", Diagnostics.empty, false, delays⟩ := by
  refine ⟨rfl, rfl, ?_⟩
  apply execLoopAux_error_step env c attempt backoff remaining delays hctx
  rw [hq]
  rfl

/-- Witness for C8 at a connection-reset transport error. -/
theorem transport_error_fatal_witness :
    (PollCommandInvocation "c" (Except.error "connection reset")).hasError = true ∧
    (PollCommandInvocation "c" (Except.error "connection reset")).warningsCount = 0 ∧
    execLoopAux envTransport "c" 0 1 10 [] = ⟨"Failed", Diagnostics.empty, false, []⟩ :=
  transport_error_fatal envTransport "c" "connection reset" 0 1 9 [] rfl rfl

/-- C4 counterexample: at an attempt with a failed record the attempt's
classification carries error diagnostics, yet the enclosing operation
returns status "Failed" with empty diagnostics — the failure is not
reported as a user-visible error through the returned diagnostics. -/
theorem remote_failure_diagnostics_dropped_cex :
    (PollCommandInvocation "c" (envMixed.queryResult 0)).hasError = true ∧
    (execLoopAux envMixed "c" 0 1 10 []).status = "Failed" ∧
    (execLoopAux envMixed "c" 0 1 10 []).diagnostics = Diagnostics.empty := by
  decide

/-- C4 amended: when a poll attempt reports has-failure the operation
records status "Failed" and completes without a cycle-fatal error, but the
attempt's error diagnostics are discarded — the returned diagnostics are
empty rather than carrying a user-visible terminal error. -/
theorem remote_failure_absorbed (env : PollEnv) (c : String)
    (attempt backoff remaining : Nat) (delays : List Nat)
    (hctx : env.ctxErrBefore attempt = false)
    (herr : (PollCommandInvocation c (env.queryResult attempt)).hasError = true) :
    execLoopAux env c attempt backoff (remaining + 1) delays =
      ⟨"Failed", Diagnostics.empty, false, delays⟩ ∧
    (execLoopAux env c attempt backoff (remaining + 1) delays).diagnostics.hasError = false := by
  have h := execLoopAux_error_step env c attempt backoff remaining delays hctx herr
  exact ⟨h, by rw [h]; rfl⟩

/-- Witness for C4 at one failed and one in-progress record. -/
theorem remote_failure_absorbed_witness :
    execLoopAux envMixed "w" 0 1 10 [] = ⟨"Failed", Diagnostics.empty, false, []⟩ ∧
    (execLoopAux envMixed "w" 0 1 10 []).diagnostics.hasError = false :=
  remote_failure_absorbed envMixed "w" 0 1 9 [] rfl (by decide)

/-- C2: for every record set read by the Status Resolver, the final status
equals the spec's reduction that evaluates targets in order and
short-circuits at the first match — plugin non-success gives Failed, then
the coarse status gives Success, Failed, TimedOut, Cancelled, and anything
else (including an empty record set) gives Unknown. -/
theorem status_resolver_matches_spec (invs : List CommandInvocation) :
    getActualCommandStatus (Except.ok invs) = specFinalStatus invs := by
  cases invs with
  | nil => rfl
  | cons inv rest =>
      unfold getActualCommandStatus getActualCommandStatusRecords specFinalStatus
      rw [List.findSome?_cons]
      unfold specTargetRule
      by_cases hp : inv.commandPlugins.any (fun p => p.status != CommandPluginStatus.success)
      · simp [hp]
      · rw [Bool.not_eq_true] at hp
        cases hs : inv.status <;> simp [hp, hs]

/-- C10: the Status Resolver is total over query failure — a failed fresh
query yields "Unknown", and every result is one of the five final
statuses. -/
theorem status_resolver_total (q : Except String (List CommandInvocation)) :
    (getActualCommandStatus q = "Success" ∨ getActualCommandStatus q = "Failed" ∨
      getActualCommandStatus q = "TimedOut" ∨ getActualCommandStatus q = "Cancelled" ∨
      getActualCommandStatus q = "Unknown") ∧
    (∀ e, getActualCommandStatus (Except.error e) = "Unknown") := by
  refine ⟨?_, fun e => rfl⟩
  cases q with
  | error e => simp [getActualCommandStatus]
  | ok invs =>
      cases invs with
      | nil => simp [getActualCommandStatus, getActualCommandStatusRecords]
      | cons inv rest =>
          unfold getActualCommandStatus getActualCommandStatusRecords
          by_cases hp : inv.commandPlugins.any (fun p => p.status != CommandPluginStatus.success)
          · simp [hp]
          · rw [Bool.not_eq_true] at hp
            cases hs : inv.status <;> simp [hp, hs]

/-- C5: across a run of N consecutive still-in-progress attempts from the
start of the cycle, the delay slept before attempt k+1 is min(2^k, 30)
seconds — the sequence 1s, 2s, 4s, 8s, 16s, 30s, 30s, and so on. -/
theorem backoff_schedule (env : PollEnv) (c : String) (N : Nat)
    (hN : N ≤ maxAttempts)
    (h : ∀ k, k < N →
      env.ctxErrBefore k = false ∧
      (PollCommandInvocation c (env.queryResult k)).hasError = false ∧
      0 < (PollCommandInvocation c (env.queryResult k)).warningsCount ∧
      env.sleepOutcome k = SleepOutcome.elapsed) :
    (runPollLoop env c).delays.take N = (List.range N).map (fun k => min (2 ^ k) 30) := by
  unfold runPollLoop
  rw [execLoopAux_warn_segment env c N 0 1 maxAttempts [] hN
    (fun k hk => by simpa using h k hk)]
  obtain ⟨s, hs⟩ := execLoopAux_delays_prefix env c (maxAttempts - N) (0 + N)
    (nextBackoff^[N] 1) ([] ++ backoffSeq 1 N)
  rw [hs, List.nil_append]
  have hform : backoffSeq 1 N = (List.range N).map (fun k => min (2 ^ k) 30) := by
    have hc := backoffSeq_closed_form N 0
    norm_num at hc
    exact hc
  have hl : (backoffSeq 1 N).length = N := backoffSeq_length 1 N
  rw [List.take_left' hl]
  exact hform

/-- Witness for C5: ten zero-record attempts give the capped doubling
schedule. -/
theorem backoff_schedule_witness :
    (runPollLoop envZero "c").delays.take 10 =
      (List.range 10).map (fun k => min (2 ^ k) 30) :=
  backoff_schedule envZero "c" 10 (by decide)
    (fun k _ => ⟨rfl, rfl, Nat.one_pos, rfl⟩)

/-- C3 counterexample: when the 5-minute deadline interrupts the first
backoff sleep, the cycle ends with a timeout error and the Status Resolver
is never invoked, so the claim that the resolver runs whenever the time
ceiling is reached first is false. -/
theorem deadline_skips_resolver_cex :
    envDeadline.sleepOutcome 0 = SleepOutcome.deadlineExceeded ∧
    (runPollLoop envDeadline "c").diagnostics.hasError = true ∧
    (runPollLoop envDeadline "c").resolverInvoked = false := by
  decide

/-- C3 amended: when the 10-attempt ceiling is exhausted without
resolution the Status Resolver is invoked once for a best-effort final
status, but when the 5-minute deadline fires mid-sleep the cycle ends with
a timeout error without invoking the resolver. -/
theorem resolver_on_budget_exhaustion (env : PollEnv) (c : String) :
    ((∀ k, k < maxAttempts →
        env.ctxErrBefore k = false ∧
        (PollCommandInvocation c (env.queryResult k)).hasError = false ∧
        0 < (PollCommandInvocation c (env.queryResult k)).warningsCount ∧
        env.sleepOutcome k = SleepOutcome.elapsed) →
      runPollLoop env c =
        ⟨getActualCommandStatus env.finalQuery, Diagnostics.empty, true,
          backoffSeq 1 maxAttempts⟩) ∧
    (∀ attempt backoff remaining delays,
      env.ctxErrBefore attempt = false →
      (PollCommandInvocation c (env.queryResult attempt)).hasError = false →
      0 < (PollCommandInvocation c (env.queryResult attempt)).warningsCount →
      env.sleepOutcome attempt = SleepOutcome.deadlineExceeded →
      execLoopAux env c attempt backoff (remaining + 1) delays =
        ⟨"InProgress", timeoutDiag c attempt, false, delays⟩) := by
  constructor
  · intro h
    unfold runPollLoop
    rw [execLoopAux_warn_segment env c maxAttempts 0 1 maxAttempts [] le_rfl
      (fun k hk => by simpa using h k hk)]
    rw [Nat.sub_self, execLoopAux_exhausted, List.nil_append]
  · intro attempt backoff remaining delays hctx herr hwarn hsleep
    exact execLoopAux_deadline_step env c attempt backoff remaining delays hctx herr hwarn hsleep

/-- Witness for C3: exhaustion invokes the resolver, a mid-sleep deadline
does not. -/
theorem resolver_on_budget_exhaustion_witness :
    runPollLoop envZero "c" =
      ⟨getActualCommandStatus envZero.finalQuery, Diagnostics.empty, true,
        backoffSeq 1 maxAttempts⟩ ∧
    execLoopAux envDeadline "c" 0 1 10 [] =
      ⟨"InProgress", timeoutDiag "c" 0, false, []⟩ := by
  constructor
  · exact (resolver_on_budget_exhaustion envZero "c").1
      (fun k _ => ⟨rfl, rfl, Nat.one_pos, rfl⟩)
  · exact (resolver_on_budget_exhaustion envDeadline "c").2 0 1 9 [] rfl
      (by decide) (by decide) rfl

/-- C7 counterexample: with a present-but-empty instance_ids list and no
targets block, neither target form is non-empty, yet validation succeeds —
the code tests nullness of instance_ids, not emptiness, so the claimed
equivalence fails. -/
theorem target_validation_null_vs_empty_cex :
    ¬(((validateAndBuildTargets dataEmptyIds).2.hasError = false) ↔
      exactlyOne (instanceIdsNonEmpty dataEmptyIds.instanceIds)
        (!dataEmptyIds.targets.isEmpty) = true) := by
  decide

/-- C7 amended: for a plan whose instance_ids is not unknown, validation
succeeds iff exactly one of the two forms is supplied — instance_ids
non-null, or the targets block non-empty; in the both-supplied and
neither-supplied cases a Validation Error is reported and Create performs
no dispatch. -/
theorem target_validation_mutual_exclusion (data : SendCommandModel) (env : DispatchEnv)
    (hu : data.instanceIds ≠ TFValue.unknown) :
    ((validateAndBuildTargets data).2.hasError = false ↔
      exactlyOne (!data.instanceIds.isNull) (!data.targets.isEmpty) = true) ∧
    (exactlyOne (!data.instanceIds.isNull) (!data.targets.isEmpty) = false →
      isValidationError (validateAndBuildTargets data).2 = true ∧
      (Create env data).2.2 = 0) := by
  rcases hids : data.instanceIds with _ | _ | l
  · exact absurd hids hu
  · rcases ht : data.targets with _ | ⟨t, ts⟩
    · refine ⟨?_, ?_⟩ <;>
        simp [validateAndBuildTargets, Create, isValidationError, exactlyOne,
          TFValue.isNull, hids, ht, Diagnostics.hasError, Diagnostics.addError,
          Diagnostics.empty]
    · refine ⟨?_, ?_⟩ <;>
        simp [validateAndBuildTargets, Create, isValidationError, exactlyOne,
          TFValue.isNull, hids, ht, Diagnostics.hasError, Diagnostics.addError,
          Diagnostics.empty]
  · rcases ht : data.targets with _ | ⟨t, ts⟩
    · refine ⟨?_, ?_⟩ <;>
        simp [validateAndBuildTargets, Create, isValidationError, exactlyOne,
          TFValue.isNull, hids, ht, Diagnostics.hasError, Diagnostics.addError,
          Diagnostics.empty]
    · refine ⟨?_, ?_⟩ <;>
        simp [validateAndBuildTargets, Create, isValidationError, exactlyOne,
          TFValue.isNull, hids, ht, Diagnostics.hasError, Diagnostics.addError,
          Diagnostics.empty]

/-- Witness for C7 amended at the empty-but-present instance_ids plan. -/
theorem target_validation_mutual_exclusion_witness :
    dataEmptyIds.instanceIds ≠ TFValue.unknown ∧
    ((validateAndBuildTargets dataEmptyIds).2.hasError = false ↔
      exactlyOne (!dataEmptyIds.instanceIds.isNull) (!dataEmptyIds.targets.isEmpty) = true) :=
  ⟨by decide,
    (target_validation_mutual_exclusion dataEmptyIds dispatchEnvZero (by decide)).1⟩

/-- C9: an Update whose triggers map is unchanged performs no new dispatch
and keeps the persisted command identifier produced by the prior cycle. -/
theorem update_unchanged_triggers_idempotent (env : DispatchEnv)
    (plan state : SendCommandModel) (c : String)
    (ht : plan.triggers = state.triggers)
    (hp : plan.commandId.isUnknownOrNull = true)
    (hs : state.commandId = TFValue.known c) :
    (Update env plan state).2.2 = 0 ∧
    (Update env plan state).1.commandId = TFValue.known c := by
  unfold Update
  rw [if_pos ht]
  refine ⟨rfl, ?_⟩
  rcases hpc : plan.commandId with _ | _ | s
  · simp [normalizeOptionalValues, ensureComputedDefaults, hpc, hs, TFValue.isUnknownOrNull]
  · simp [normalizeOptionalValues, ensureComputedDefaults, hpc, hs, TFValue.isUnknownOrNull]
  · rw [hpc] at hp
    simp [TFValue.isUnknownOrNull] at hp

/-- Witness for C9 at an unchanged trigger map and a persisted command
identifier from the first apply. -/
theorem update_unchanged_triggers_idempotent_witness :
    (Update dispatchEnvZero planUnchanged stateUnchanged).2.2 = 0 ∧
    (Update dispatchEnvZero planUnchanged stateUnchanged).1.commandId =
      TFValue.known "cmd-0001" :=
  update_unchanged_triggers_idempotent dispatchEnvZero planUnchanged stateUnchanged
    "cmd-0001" rfl rfl rfl
